import Mathlib

/-! # Helmet camera firmware (ESP32-CAM): telemetry protocol and power management

A shallow embedding of `firmware/esp32-cam/telemetry.cpp` and
`firmware/esp32-cam/power_management.cpp`.

Conventions of the embedding.

* Bytes and machine integers are natural numbers.  A `uint32_t` increment is
  written `(n + 1) % UINT32_MOD`, an unsigned 32-bit subtraction
  `(a + UINT32_MOD - b) % UINT32_MOD`.
* Objects that are handed to the radio as raw memory (`radio->write(&packet, sizeof ...)`)
  are modelled by their memory image, a list of bytes, laid out as the ESP32
  toolchain lays them out: little-endian, every scalar aligned to its size
  (`float` and `uint32_t` to 4, `uint16_t` to 2), the struct size rounded up to
  its largest alignment.  Padding bytes and uninitialised stack bytes are
  indeterminate in C++; they are inputs of the model.
* The hardware is the environment.  The result of `radio->write` is given by a
  function of the frame, the clock `millis()` and the ADC readings are
  arguments, and the calls a method makes to the hardware are returned as a
  list, in program order.  Serial debug output is not modelled.
* `float` values are modelled by the rational numbers they denote and the
  arithmetic on them is exact (no rounding); a `float` field inside a telemetry
  packet is carried as its 32-bit pattern.
-/

namespace HelmetCam

/-! ## Machine integers and memory images -/

/-- Number of values of a `uint32_t` (and of `unsigned long` on the ESP32). -/
def UINT32_MOD : Nat := 4294967296

/-- Memory image of a 16-bit scalar, little-endian. -/
def le16 (n : Nat) : List Nat :=
  [n % 256, n / 256 % 256]

/-- Memory image of a 32-bit scalar, little-endian. -/
def le32 (n : Nat) : List Nat :=
  [n % 256, n / 256 % 256, n / 65536 % 256, n / 16777216 % 256]

/-- Memory image of a `char[n]` array whose elements are `a`: element `i` is
`a[i]`, read as a byte. -/
def charArray (n : Nat) (a : List Nat) : List Nat :=
  (List.range n).map (fun i => a.getD i 0 % 256)

/-- The libc function `strncpy(dst, src, n)`, as the `n` bytes it stores into
`dst`: the characters of `src` up to its terminating NUL (the end of the list,
or a `0` in it), at most `n` of them, then NUL bytes up to `n` bytes in all. -/
def strncpy : Nat → List Nat → List Nat
  | 0, _ => []
  | n + 1, [] => 0 :: strncpy n []
  | n + 1, c :: cs => if c = 0 then 0 :: strncpy n [] else c :: strncpy n cs

/-- The string literal `"INFO"`. -/
def INFO : List Nat := [73, 78, 70, 79]

/-- The string literal `"ALERT"`. -/
def ALERT : List Nat := [65, 76, 69, 82, 84]

/-! ## telemetry.h / telemetry.cpp -/

/-- The fields of `struct TelemetryData`.  The two `float` fields hold their
32-bit patterns, `rssi` holds the byte of the `int8_t`. -/
structure TelemetryData where
  deviceId : List Nat
  batteryVoltage : Nat
  batteryPercent : Nat
  rssi : Nat
  temperature : Nat
  uptime : Nat
  errorCount : Nat
  checksum : Nat
  deriving DecidableEq, Repr

/-- The padding bytes of a `TelemetryData` object: two bytes after `rssi`
(offsets 22 and 23, so that `temperature` is 4-aligned) and one byte after
`checksum` (offset 35, so that the size is a multiple of 4). -/
structure TelemetryPadding where
  b22 : Nat
  b23 : Nat
  b35 : Nat
  deriving DecidableEq, Repr

/-- The value of `sizeof(TelemetryData)`. -/
def sizeofTelemetryData : Nat := 36

/-- Byte offset of the `checksum` member in `TelemetryData`. -/
def offsetofChecksum : Nat := 34

/-- Memory image of a `TelemetryData` object:
`deviceId` 0..15, `batteryVoltage` 16..19, `batteryPercent` 20, `rssi` 21,
padding 22..23, `temperature` 24..27, `uptime` 28..31, `errorCount` 32..33,
`checksum` 34, padding 35. -/
def TelemetryData.image (d : TelemetryData) (pad : TelemetryPadding) : List Nat :=
  charArray 16 d.deviceId
    ++ le32 d.batteryVoltage
    ++ [d.batteryPercent % 256, d.rssi % 256, pad.b22 % 256, pad.b23 % 256]
    ++ le32 d.temperature
    ++ le32 d.uptime
    ++ le16 d.errorCount
    ++ [d.checksum % 256, pad.b35 % 256]

/-- The private state of `class Telemetry`; the `RF24* radio` member is the
environment. -/
structure Telemetry where
  initialized : Bool
  packetsSent : Nat
  packetsFailed : Nat
  deriving DecidableEq, Repr

/-- What a send method does: the state it leaves, the frame it passed to
`radio->write` (`none` when it made no such call) and the value it returns. -/
structure SendResult where
  state : Telemetry
  written : Option (List Nat)
  ret : Bool
  deriving DecidableEq, Repr

/-- The constructor `Telemetry::Telemetry()`. -/
def Telemetry.ctor : Telemetry :=
  { initialized := false, packetsSent := 0, packetsFailed := 0 }

/-- The method `Telemetry::begin()`; `radioBegin` is what `radio->begin()`
returns.  The result is the new state and the returned flag. -/
def Telemetry.begin (t : Telemetry) (radioBegin : Bool) : Telemetry × Bool :=
  if !radioBegin then
    (t, false)
  else
    ({ t with initialized := true }, true)

/-- The method `Telemetry::calculateChecksum(data, length)`: the running 8-bit
XOR of `data[0..length-1]`. -/
def calculateChecksum (data : List Nat) (length : Nat) : Nat :=
  (data.take length).foldl (fun checksum b => (checksum ^^^ b) % 256) 0

/-- The method `Telemetry::sendData(data)`.  `radioWrite` is the answer of
`radio->write` to a frame, `pad` the padding bytes of the local `packet`. -/
def Telemetry.sendData (t : Telemetry) (radioWrite : List Nat → Bool)
    (data : TelemetryData) (pad : TelemetryPadding) : SendResult :=
  if !t.initialized then
    { state := t, written := none, ret := false }
  else
    let packet := data
    let packet :=
      { packet with checksum := calculateChecksum (packet.image pad) (sizeofTelemetryData - 1) }
    let frame := (packet.image pad).take sizeofTelemetryData
    let success := radioWrite frame
    if success then
      { state := { t with packetsSent := (t.packetsSent + 1) % UINT32_MOD },
        written := some frame, ret := success }
    else
      { state := { t with packetsFailed := (t.packetsFailed + 1) % UINT32_MOD },
        written := some frame, ret := success }

/-- The value of `sizeof(infoPacket)`: `char type[8]`, `char deviceId[16]`,
`char version[16]`, `uint8_t checksum`, no padding. -/
def sizeofInfoPacket : Nat := 41

/-- Memory image of the local `infoPacket` of `sendDeviceInfo`: `type` 0..7,
`deviceId` 8..23, `version` 24..39, `checksum` 40. -/
def infoPacketImage (type deviceId version : List Nat) (checksum : Nat) : List Nat :=
  type ++ deviceId ++ version ++ [checksum % 256]

/-- The method `Telemetry::sendDeviceInfo(deviceId, version)`.  `stale` is the
content of the checksum byte of the uninitialised local before it is assigned. -/
def Telemetry.sendDeviceInfo (t : Telemetry) (radioWrite : List Nat → Bool)
    (deviceId version : List Nat) (stale : Nat) : SendResult :=
  if !t.initialized then
    { state := t, written := none, ret := false }
  else
    let type := strncpy 8 INFO
    let devId := strncpy 16 deviceId
    let vers := strncpy 16 version
    let checksum :=
      calculateChecksum (infoPacketImage type devId vers stale) (sizeofInfoPacket - 1)
    let frame := (infoPacketImage type devId vers checksum).take sizeofInfoPacket
    let success := radioWrite frame
    if success then
      { state := { t with packetsSent := (t.packetsSent + 1) % UINT32_MOD },
        written := some frame, ret := success }
    else
      { state := { t with packetsFailed := (t.packetsFailed + 1) % UINT32_MOD },
        written := some frame, ret := success }

/-- The value of `sizeof(alertPacket)`: `char type[8]`, `uint8_t alertCode`,
three padding bytes, `uint32_t timestamp`, `uint8_t checksum`, three padding
bytes. -/
def sizeofAlertPacket : Nat := 20

/-- Memory image of the local `alertPacket` of `sendAlert`: `type` 0..7,
`alertCode` 8, padding 9..11, `timestamp` 12..15, `checksum` 16, padding
17..19.  `stack` is the content of the 20 bytes before the packet is filled
in; the bytes that no assignment writes keep it. -/
def alertPacketImage (type : List Nat) (alertCode timestamp checksum : Nat)
    (stack : List Nat) : List Nat :=
  type
    ++ [alertCode % 256, stack.getD 9 0 % 256, stack.getD 10 0 % 256, stack.getD 11 0 % 256]
    ++ le32 timestamp
    ++ [checksum % 256, stack.getD 17 0 % 256, stack.getD 18 0 % 256, stack.getD 19 0 % 256]

/-- The method `Telemetry::sendAlert(alertCode)`.  `now` is the value of
`millis()`, `stack` the prior content of the uninitialised local. -/
def Telemetry.sendAlert (t : Telemetry) (radioWrite : List Nat → Bool)
    (alertCode now : Nat) (stack : List Nat) : SendResult :=
  if !t.initialized then
    { state := t, written := none, ret := false }
  else
    let type := strncpy 8 ALERT
    let timestamp := now % UINT32_MOD
    let checksum :=
      calculateChecksum (alertPacketImage type alertCode timestamp (stack.getD 16 0) stack)
        (sizeofAlertPacket - 1)
    let frame := (alertPacketImage type alertCode timestamp checksum stack).take sizeofAlertPacket
    let success := radioWrite frame
    if success then
      { state := { t with packetsSent := (t.packetsSent + 1) % UINT32_MOD },
        written := some frame, ret := success }
    else
      { state := { t with packetsFailed := (t.packetsFailed + 1) % UINT32_MOD },
        written := some frame, ret := success }

/-! ## config.h -/

/-- The macro `BATTERY_ADC_PIN`. -/
def BATTERY_ADC_PIN : Nat := 33

/-- The macro `VOLTAGE_DIVIDER_RATIO`. -/
def VOLTAGE_DIVIDER_RATIO : ℚ := 4.2

/-- The macro `BATTERY_MAX_VOLTAGE`. -/
def BATTERY_MAX_VOLTAGE : ℚ := 12.6

/-- The macro `BATTERY_LOW_VOLTAGE`. -/
def BATTERY_LOW_VOLTAGE : ℚ := 10.5

/-- The macro `BATTERY_CRITICAL_VOLTAGE`. -/
def BATTERY_CRITICAL_VOLTAGE : ℚ := 9.9

/-- The macro `POWER_CHECK_INTERVAL`, in milliseconds. -/
def POWER_CHECK_INTERVAL : Nat := 5000

/-! ## power_management.h / power_management.cpp -/

/-- The calls the power management module makes to the Arduino core and the
ESP32 SDK. -/
inductive HwCall where
  | pinMode (pin : Nat)
  | analogReadResolution (bits : Nat)
  | analogSetAttenuation
  | analogRead (pin : Nat)
  | delay (ms : Nat)
  | millis
  | setCpuFrequencyMhz (mhz : Nat)
  deriving DecidableEq, Repr

/-- The private state of `class PowerManagement`. -/
structure PowerManagement where
  currentVoltage : ℚ
  batteryPercent : Nat
  temperature : ℚ
  lowPowerMode : Bool
  lastVoltageCheck : Nat
  deriving DecidableEq, Repr

/-- What a method of `PowerManagement` does: the state it leaves, the value it
returns and the hardware calls it made, in order. -/
structure Run (α : Type) where
  state : PowerManagement
  ret : α
  calls : List HwCall

/-- The CPU frequencies requested by a sequence of calls, in order. -/
def cpuRequests (calls : List HwCall) : List Nat :=
  calls.filterMap (fun c => match c with
    | HwCall.setCpuFrequencyMhz mhz => some mhz
    | _ => none)

/-- The number of ADC samples taken by a sequence of calls. -/
def adcReads (calls : List HwCall) : Nat :=
  calls.countP (fun c => match c with
    | HwCall.analogRead _ => true
    | _ => false)

/-- The Arduino core macro
`constrain(amt, low, high) ((amt)<(low)?(low):((amt)>(high)?(high):(amt)))`. -/
def constrain (amt low high : ℚ) : ℚ :=
  if amt < low then low else if amt > high then high else amt

/-- The conversion `(uint8_t)x` of a `float`: the fractional part is discarded. -/
def toUint8 (x : ℚ) : Nat :=
  (if 0 ≤ x then ⌊x⌋ else -⌊-x⌋).toNat % 256

/-- The constructor `PowerManagement::PowerManagement()`. -/
def PowerManagement.ctor : PowerManagement :=
  { currentVoltage := 0.0, batteryPercent := 0, temperature := 25.0,
    lowPowerMode := false, lastVoltageCheck := 0 }

/-- The method `PowerManagement::readVoltage()`; `adc i` is what the `i`-th
call of `analogRead` returns (a `uint16_t`).  The result is the voltage and
the calls made. -/
def PowerManagement.readVoltage (adc : Nat → Nat) : ℚ × List HwCall :=
  let numReadings : Nat := 10
  let sum : Nat :=
    (List.range numReadings).foldl (fun sum i => (sum + adc i % 65536) % UINT32_MOD) 0
  let adcValue : ℚ := ((sum / numReadings : Nat) : ℚ)
  let voltage : ℚ := (adcValue / 4095.0) * 3.3 * VOLTAGE_DIVIDER_RATIO
  (voltage,
    (List.range numReadings).flatMap
      (fun _ => [HwCall.analogRead BATTERY_ADC_PIN, HwCall.delay 10]))

/-- The method `PowerManagement::calculatePercent(voltage)`. -/
def PowerManagement.calculatePercent (voltage : ℚ) : Nat :=
  if voltage ≥ BATTERY_MAX_VOLTAGE then
    100
  else if voltage ≤ BATTERY_CRITICAL_VOLTAGE then
    0
  else
    let range : ℚ := BATTERY_MAX_VOLTAGE - BATTERY_CRITICAL_VOLTAGE
    let percent : ℚ := ((voltage - BATTERY_CRITICAL_VOLTAGE) / range) * 100.0
    toUint8 (constrain percent 0 100)

/-- The method `PowerManagement::begin()`. -/
def PowerManagement.begin (s : PowerManagement) (adc : Nat → Nat) : Run Bool :=
  let rd := PowerManagement.readVoltage adc
  let s := { s with currentVoltage := rd.1 }
  let s := { s with batteryPercent := PowerManagement.calculatePercent s.currentVoltage }
  { state := s, ret := true,
    calls := [HwCall.pinMode BATTERY_ADC_PIN, HwCall.analogReadResolution 12,
      HwCall.analogSetAttenuation] ++ rd.2 }

/-- The method `PowerManagement::getBatteryVoltage()`; `now` is the value of
`millis()`, and `adc` the readings of the ADC should it be sampled. -/
def PowerManagement.getBatteryVoltage (s : PowerManagement) (now : Nat) (adc : Nat → Nat) :
    Run ℚ :=
  let currentTime := now % UINT32_MOD
  if (currentTime + UINT32_MOD - s.lastVoltageCheck % UINT32_MOD) % UINT32_MOD
      ≥ POWER_CHECK_INTERVAL then
    let rd := PowerManagement.readVoltage adc
    let s := { s with currentVoltage := rd.1 }
    let s := { s with batteryPercent := PowerManagement.calculatePercent s.currentVoltage }
    let s := { s with lastVoltageCheck := currentTime }
    { state := s, ret := s.currentVoltage, calls := HwCall.millis :: rd.2 }
  else
    { state := s, ret := s.currentVoltage, calls := [HwCall.millis] }

/-- The method `PowerManagement::getBatteryPercent()`. -/
def PowerManagement.getBatteryPercent (s : PowerManagement) : Nat :=
  s.batteryPercent

/-- The method `PowerManagement::isBatteryLow()`. -/
def PowerManagement.isBatteryLow (s : PowerManagement) : Bool :=
  decide (s.currentVoltage < BATTERY_LOW_VOLTAGE)

/-- The method `PowerManagement::isBatteryCritical()`. -/
def PowerManagement.isBatteryCritical (s : PowerManagement) : Bool :=
  decide (s.currentVoltage < BATTERY_CRITICAL_VOLTAGE)

/-- The method `PowerManagement::enterLowPowerMode()`. -/
def PowerManagement.enterLowPowerMode (s : PowerManagement) : Run Unit :=
  if s.lowPowerMode then
    { state := s, ret := (), calls := [] }
  else
    { state := { s with lowPowerMode := true }, ret := (),
      calls := [HwCall.setCpuFrequencyMhz 80] }

/-- The method `PowerManagement::exitLowPowerMode()`. -/
def PowerManagement.exitLowPowerMode (s : PowerManagement) : Run Unit :=
  if !s.lowPowerMode then
    { state := s, ret := (), calls := [] }
  else
    { state := { s with lowPowerMode := false }, ret := (),
      calls := [HwCall.setCpuFrequencyMhz 240] }

/-- The method `PowerManagement::update()`, with `LOW_POWER_MODE_ENABLE` set
as in `config.h`. -/
def PowerManagement.update (s : PowerManagement) (now : Nat) (adc : Nat → Nat) : Run Unit :=
  let g := s.getBatteryVoltage now adc
  if g.state.isBatteryLow && !g.state.lowPowerMode then
    let e := g.state.enterLowPowerMode
    { state := e.state, ret := (), calls := g.calls ++ e.calls }
  else if !g.state.isBatteryLow && g.state.lowPowerMode then
    let e := g.state.exitLowPowerMode
    { state := e.state, ret := (), calls := g.calls ++ e.calls }
  else
    { state := g.state, ret := (), calls := g.calls }

/-! ## rf_transmitter.h / rf_transmitter.cpp -/

/-- The table `RF_CHANNEL_FREQ` of `config.h`, in MHz. -/
def RF_CHANNEL_FREQ : List Nat :=
  [5705, 5685, 5665, 5645, 5885, 5905, 5925, 5945]

/-- The private state of `class RFTransmitter`: `currentChannel` and
`powerLevel` are `uint8_t`, `rssiValue` is `int8_t`. -/
structure RFTransmitter where
  currentChannel : Nat
  powerLevel : Nat
  initialized : Bool
  rssiValue : Int
  deriving DecidableEq, Repr

/-- The constructor `RFTransmitter::RFTransmitter()`. -/
def RFTransmitter.ctor : RFTransmitter :=
  { currentChannel := 1, powerLevel := 25, initialized := false, rssiValue := 0 }

/-- The method `RFTransmitter::getFrequency(channel)`. -/
def RFTransmitter.getFrequency (channel : Nat) : Nat :=
  if channel ≥ 1 ∧ channel ≤ 8 then
    RF_CHANNEL_FREQ.getD (channel - 1) 0
  else
    5800

/-- The method `RFTransmitter::configureTX()`: it only prints. -/
def RFTransmitter.configureTX (s : RFTransmitter) : RFTransmitter :=
  s

/-- The method `RFTransmitter::begin()`: the new state and the returned flag. -/
def RFTransmitter.begin (s : RFTransmitter) : RFTransmitter × Bool :=
  let s := s.configureTX
  ({ s with initialized := true }, true)

/-- The method `RFTransmitter::setChannel(channel)`; `channel` is the
`uint8_t` argument. -/
def RFTransmitter.setChannel (s : RFTransmitter) (channel : Nat) : RFTransmitter :=
  if channel < 1 ∨ channel > 8 then
    s
  else
    { s with currentChannel := channel }

/-- The method `RFTransmitter::setPower(power)`; `power` is the `uint16_t`
argument, and the assignment `powerLevel = power` converts it to `uint8_t`. -/
def RFTransmitter.setPower (s : RFTransmitter) (power : Nat) : RFTransmitter :=
  let power := if power ≠ 25 ∧ power ≠ 200 ∧ power ≠ 600 then 25 else power
  { s with powerLevel := power % 256 }

/-- The method `RFTransmitter::transmitFrame(frameBuffer, frameSize)`. -/
def RFTransmitter.transmitFrame (_s : RFTransmitter) (_frameBuffer : List Nat)
    (_frameSize : Nat) : Bool :=
  true

/-- The method `RFTransmitter::getRSSI()`. -/
def RFTransmitter.getRSSI (s : RFTransmitter) : Int :=
  if s.powerLevel = 25 then -20
  else if s.powerLevel = 200 then -10
  else if s.powerLevel = 600 then -5
  else s.rssiValue

/-- The method `RFTransmitter::getChannel()`. -/
def RFTransmitter.getChannel (s : RFTransmitter) : Nat :=
  s.currentChannel

/-! ## Definitions used to state the properties -/

/-- The bytes of a `TelemetryData` object that precede its `checksum` member
(offsets 0..33). -/
def TelemetryData.body (d : TelemetryData) (pad : TelemetryPadding) : List Nat :=
  charArray 16 d.deviceId
    ++ le32 d.batteryVoltage
    ++ [d.batteryPercent % 256, d.rssi % 256, pad.b22 % 256, pad.b23 % 256]
    ++ le32 d.temperature
    ++ le32 d.uptime
    ++ le16 d.errorCount

/-- The memory image of the local `packet` of `sendData` once its checksum is
assigned, that is, at the call of `radio->write`. -/
def sendDataFrame (data : TelemetryData) (pad : TelemetryPadding) : List Nat :=
  ({ data with checksum := calculateChecksum (data.image pad) (sizeofTelemetryData - 1) }
    : TelemetryData).image pad

/-- A send result `r`, obtained from the state `t` with the radio `w`, wrote one
frame, returns what the radio answered for it, and moved exactly one counter
by one in `uint32_t` arithmetic: `packetsSent` when the radio answered `true`,
`packetsFailed` when it answered `false`. -/
def CountsWrite (t : Telemetry) (w : List Nat → Bool) (r : SendResult) : Prop :=
  ∃ frame, r.written = some frame ∧ r.ret = w frame
    ∧ r.state.initialized = t.initialized
    ∧ (w frame = true →
        r.state.packetsSent = (t.packetsSent + 1) % UINT32_MOD
        ∧ r.state.packetsFailed = t.packetsFailed)
    ∧ (w frame = false →
        r.state.packetsFailed = (t.packetsFailed + 1) % UINT32_MOD
        ∧ r.state.packetsSent = t.packetsSent)

/-- A radio whose `write` always succeeds. -/
def radioUp : List Nat → Bool := fun _ => true

/-- A radio whose `write` always fails. -/
def radioDown : List Nat → Bool := fun _ => false

/-- Padding bytes that are all zero. -/
def zeroPadding : TelemetryPadding := { b22 := 0, b23 := 0, b35 := 0 }

/-- A telemetry record whose `checksum` member holds 1 when it is passed to
`sendData`; the device id is "HE", every other field is 0. -/
def staleData : TelemetryData :=
  { deviceId := [72, 69], batteryVoltage := 0, batteryPercent := 0, rssi := 0,
    temperature := 0, uptime := 0, errorCount := 0, checksum := 1 }

/-- A telemetry record of a running device: id "HELMET_01", 11.1 V
(`0x4131999A`), 44 %, RSSI -20, 25.0 degrees (`0x41C80000`), 60 s of uptime. -/
def sampleData : TelemetryData :=
  { deviceId := [72, 69, 76, 77, 69, 84, 95, 48, 49], batteryVoltage := 1093769626,
    batteryPercent := 44, rssi := 236, temperature := 1103626240, uptime := 60000,
    errorCount := 0, checksum := 0 }

/-- The device id "HELMET_CAMERA_UNIT_0001", 23 characters. -/
def longDeviceId : List Nat :=
  [72, 69, 76, 77, 69, 84, 95, 67, 65, 77, 69, 82, 65, 95, 85, 78, 73, 84, 95, 48, 48, 48, 49]

/-- The version string "1.0.0". -/
def VERSION : List Nat := [49, 46, 48, 46, 48]

/-- The value of `currentTime - lastVoltageCheck` in `getBatteryVoltage`, an
unsigned 32-bit difference, when `millis()` returns `now`. -/
def elapsed (s : PowerManagement) (now : Nat) : Nat :=
  (now % UINT32_MOD + UINT32_MOD - s.lastVoltageCheck % UINT32_MOD) % UINT32_MOD

/-- The sum that the loop of `readVoltage` accumulates. -/
def adcSum (adc : Nat → Nat) : Nat :=
  (List.range 10).foldl (fun sum i => (sum + adc i % 65536) % UINT32_MOD) 0

/-- An ADC that reads 3600 every time: 12.18 V at the battery. -/
def adcFull : Nat → Nat := fun _ => 3600

/-- An ADC that reads 3000 every time: 10.15 V, below the low threshold. -/
def adcLow : Nat → Nat := fun _ => 3000

/-- The state after the constructor and `begin()` with a battery at 12.18 V. -/
def afterBegin : PowerManagement :=
  (PowerManagement.ctor.begin adcFull).state

/-- A call of a public method of `RFTransmitter` that can change its state or
reads it, with its arguments. -/
inductive RFCall where
  | begin
  | setChannel (channel : Nat)
  | setPower (power : Nat)
  | transmitFrame (frameBuffer : List Nat) (frameSize : Nat)
  | getRSSI
  deriving DecidableEq, Repr

/-- The state a call of a public method of `RFTransmitter` leaves. -/
def RFTransmitter.call (s : RFTransmitter) : RFCall → RFTransmitter
  | RFCall.begin => s.begin.1
  | RFCall.setChannel channel => s.setChannel channel
  | RFCall.setPower power => s.setPower power
  | RFCall.transmitFrame _ _ => s
  | RFCall.getRSSI => s

/-- The state reached from the constructor by a sequence of calls. -/
def RFTransmitter.reach (calls : List RFCall) : RFTransmitter :=
  calls.foldl RFTransmitter.call RFTransmitter.ctor

/-- A call of one of the methods `begin`, `getBatteryVoltage`, `update`,
`enterLowPowerMode`, `exitLowPowerMode` of `PowerManagement`, with what the
environment supplies to it: the value of `millis()` and the ADC readings. -/
inductive PMCall where
  | begin (adc : Nat → Nat)
  | getBatteryVoltage (now : Nat) (adc : Nat → Nat)
  | update (now : Nat) (adc : Nat → Nat)
  | enterLowPowerMode
  | exitLowPowerMode

/-- The state a call of a method of `PowerManagement` leaves. -/
def PowerManagement.call (s : PowerManagement) : PMCall → PowerManagement
  | PMCall.begin adc => (s.begin adc).state
  | PMCall.getBatteryVoltage now adc => (s.getBatteryVoltage now adc).state
  | PMCall.update now adc => (s.update now adc).state
  | PMCall.enterLowPowerMode => s.enterLowPowerMode.state
  | PMCall.exitLowPowerMode => s.exitLowPowerMode.state

/-- The state reached from the constructor by a sequence of calls. -/
def PowerManagement.reach (calls : List PMCall) : PowerManagement :=
  calls.foldl PowerManagement.call PowerManagement.ctor

/-- The method `getBatteryVoltage()` with the ADC abstracted to the voltage
that `readVoltage()` returns, should it be called: the state it leaves. -/
def PowerManagement.getBatteryVoltageOf (s : PowerManagement) (now : Nat)
    (readVoltage : ℚ) : PowerManagement :=
  let currentTime := now % UINT32_MOD
  if (currentTime + UINT32_MOD - s.lastVoltageCheck % UINT32_MOD) % UINT32_MOD
      ≥ POWER_CHECK_INTERVAL then
    let s := { s with currentVoltage := readVoltage }
    let s := { s with batteryPercent := PowerManagement.calculatePercent s.currentVoltage }
    { s with lastVoltageCheck := currentTime }
  else
    s

/-- The method `update()` with the ADC abstracted to the voltage that
`readVoltage()` returns, should it be called: the state it leaves. -/
def PowerManagement.updateOf (s : PowerManagement) (now : Nat) (readVoltage : ℚ) :
    PowerManagement :=
  let g := s.getBatteryVoltageOf now readVoltage
  if g.isBatteryLow && !g.lowPowerMode then
    g.enterLowPowerMode.state
  else if !g.isBatteryLow && g.lowPowerMode then
    g.exitLowPowerMode.state
  else
    g

/-- The state after the first tick of the scenario: `update()` at 5000 ms
measuring 12.6 V, from the constructed state. -/
def tick1 : PowerManagement := PowerManagement.ctor.updateOf 5000 12.6

/-- The state after the second tick: `update()` at 10000 ms measuring 11.1 V. -/
def tick2 : PowerManagement := tick1.updateOf 10000 11.1

/-- The state after the third tick: `update()` at 15000 ms measuring 10.4 V. -/
def tick3 : PowerManagement := tick2.updateOf 15000 10.4

/-- The state after the fourth tick: `update()` at 20000 ms measuring 9.8 V. -/
def tick4 : PowerManagement := tick3.updateOf 20000 9.8

/-- The sum `r1 + ... + r10` of ten ADC readings. -/
def readingsSum (adc : Nat → Nat) : Nat :=
  ((List.range 10).map adc).sum

/-- The voltage the claim attributes to ten readings: their arithmetic mean,
in exact arithmetic, scaled by `3.3 / 4095` and by the divider ratio. -/
def meanVoltage (adc : Nat → Nat) : ℚ :=
  ((readingsSum adc : ℚ) / 10) / 4095 * 3.3 * VOLTAGE_DIVIDER_RATIO

/-- Ten ADC readings with one count of ripple: 3009 once, then 3000. -/
def adcRipple : Nat → Nat := fun i => if i = 0 then 3009 else 3000

/-! # Properties of the telemetry protocol -/

theorem image_length (d : TelemetryData) (pad : TelemetryPadding) :
    (d.image pad).length = sizeofTelemetryData := by
  simp [TelemetryData.image, charArray, le32, le16, sizeofTelemetryData]

theorem body_length (d : TelemetryData) (pad : TelemetryPadding) :
    (d.body pad).length = offsetofChecksum := by
  simp [TelemetryData.body, charArray, le32, le16, offsetofChecksum]

theorem image_eq_body (d : TelemetryData) (pad : TelemetryPadding) :
    d.image pad = d.body pad ++ [d.checksum % 256, pad.b35 % 256] := by
  simp [TelemetryData.image, TelemetryData.body]

theorem calculateChecksum_lt (data : List Nat) (length : Nat) :
    calculateChecksum data length < 256 := by
  unfold calculateChecksum
  generalize data.take length = l
  induction l using List.reverseRecOn with
  | nil => simp
  | append_singleton l a ih =>
    rw [List.foldl_append]
    exact Nat.mod_lt _ (by norm_num)

/-- One more turn of the checksum loop XORs one more byte in. -/
theorem calculateChecksum_succ (pre : List Nat) (b : Nat) (post : List Nat) :
    calculateChecksum (pre ++ b :: post) (pre.length + 1)
      = (calculateChecksum (pre ++ b :: post) pre.length ^^^ b) % 256 := by
  unfold calculateChecksum
  have h1 : (pre ++ b :: post).take (pre.length + 1) = pre ++ [b] := by
    rw [List.take_append_eq_append_take]; simp
  have h2 : (pre ++ b :: post).take pre.length = pre := by
    simp
  rw [h1, h2, List.foldl_append]; rfl

/-- The checksum of the first `n` bytes does not depend on later bytes. -/
theorem calculateChecksum_initial (pre post post2 : List Nat) (n : Nat) (h : n ≤ pre.length) :
    calculateChecksum (pre ++ post) n = calculateChecksum (pre ++ post2) n := by
  unfold calculateChecksum
  rw [List.take_append_of_le_length h, List.take_append_of_le_length h]

/-- The frame that an initialized `sendData` hands to the radio. -/
theorem sendData_written (t : Telemetry) (w : List Nat → Bool) (data : TelemetryData)
    (pad : TelemetryPadding) (h : t.initialized = true) :
    (t.sendData w data pad).written = some (sendDataFrame data pad) := by
  have hl : (sendDataFrame data pad).take sizeofTelemetryData = sendDataFrame data pad :=
    List.take_of_length_le (by rw [sendDataFrame, image_length])
  unfold Telemetry.sendData
  simp only [h, Bool.not_true, Bool.false_eq_true, if_false]
  split <;> exact congrArg some hl

/-- The checksum byte that `sendData` stores is the XOR of the 34 bytes before
it, XORed once more with the value the `checksum` member had on entry:
`sizeof(TelemetryData) - 1` is 35, so the loop also runs over offset 34. -/
theorem sendDataFrame_checksum (data : TelemetryData) (pad : TelemetryPadding) :
    (sendDataFrame data pad).getD offsetofChecksum 0
      = (calculateChecksum (sendDataFrame data pad) offsetofChecksum
          ^^^ (data.checksum % 256)) % 256 := by
  have hlen : (data.body pad).length = 34 := body_length data pad
  have hcs : calculateChecksum (data.image pad) (sizeofTelemetryData - 1)
      = (calculateChecksum (data.body pad ++ [data.checksum % 256, pad.b35 % 256]) 34
          ^^^ (data.checksum % 256)) % 256 := by
    rw [image_eq_body]
    have := calculateChecksum_succ (data.body pad) (data.checksum % 256) [pad.b35 % 256]
    rw [hlen] at this
    exact this
  have hframe : sendDataFrame data pad
      = data.body pad ++ [calculateChecksum (data.image pad) (sizeofTelemetryData - 1) % 256,
          pad.b35 % 256] := by
    rw [sendDataFrame, image_eq_body]; rfl
  have hget : (data.body pad ++ [calculateChecksum (data.image pad) (sizeofTelemetryData - 1) % 256,
      pad.b35 % 256]).getD offsetofChecksum 0
      = calculateChecksum (data.image pad) (sizeofTelemetryData - 1) % 256 := by
    rw [List.getD_append_right _ _ _ _ (by rw [hlen]; decide), hlen]; rfl
  have hpre : ∀ x : Nat, calculateChecksum (data.body pad ++ [x, pad.b35 % 256]) offsetofChecksum
      = calculateChecksum (data.body pad ++ [data.checksum % 256, pad.b35 % 256]) 34 :=
    fun x => calculateChecksum_initial _ _ _ _ (by rw [hlen]; decide)
  rw [hframe, hget, Nat.mod_eq_of_lt (calculateChecksum_lt _ _), hpre, hcs]

/-- The frame of `sendData` carries the XOR of its preceding bytes exactly when
the `checksum` member of the argument was zero on entry. -/
theorem sendData_checksum_iff (t : Telemetry) (w : List Nat → Bool) (data : TelemetryData)
    (pad : TelemetryPadding) (h : t.initialized = true) :
    ∃ frame, (t.sendData w data pad).written = some frame
      ∧ (frame.getD offsetofChecksum 0 = calculateChecksum frame offsetofChecksum
          ↔ data.checksum % 256 = 0) := by
  refine ⟨sendDataFrame data pad, sendData_written t w data pad h, ?_⟩
  rw [sendDataFrame_checksum]
  have hx : calculateChecksum (sendDataFrame data pad) offsetofChecksum < 2 ^ 8 :=
    calculateChecksum_lt _ _
  have hc : data.checksum % 256 < 2 ^ 8 := Nat.mod_lt _ (by norm_num)
  have hlt := Nat.xor_lt_two_pow hx hc
  rw [Nat.mod_eq_of_lt (by simpa using hlt)]
  constructor
  · intro he
    have : calculateChecksum (sendDataFrame data pad) offsetofChecksum ^^^ (data.checksum % 256)
        = calculateChecksum (sendDataFrame data pad) offsetofChecksum ^^^ 0 := by
      rw [he, Nat.xor_zero]
    exact Nat.xor_right_injective this
  · intro he
    rw [he, Nat.xor_zero]

/-- C1 (code bug): `sendData` on an initialized Telemetry, given a record
whose `checksum` member holds 1, hands the radio a 36-byte frame whose checksum
byte (offset 34) is 12, while the XOR of the 34 bytes that precede it is 13:
recomputing the XOR over the bytes before the checksum does not reproduce the
stored checksum. -/
theorem sendData_checksum_includes_stale_field :
    (Telemetry.sendData { initialized := true, packetsSent := 0, packetsFailed := 0 }
        radioUp staleData zeroPadding).written
      = some (sendDataFrame staleData zeroPadding)
    ∧ (sendDataFrame staleData zeroPadding).length = 36
    ∧ (sendDataFrame staleData zeroPadding).getD offsetofChecksum 0 = 12
    ∧ calculateChecksum (sendDataFrame staleData zeroPadding) offsetofChecksum = 13 := by
  decide

theorem strncpy_nil (n : Nat) : strncpy n [] = List.replicate n 0 := by
  induction n with
  | zero => rfl
  | succ n ih => simp [strncpy, ih, List.replicate_succ]

theorem strncpy_length (n : Nat) (s : List Nat) : (strncpy n s).length = n := by
  induction n generalizing s with
  | zero => cases s <;> rfl
  | succ n ih =>
    cases s with
    | nil => simp [strncpy, ih]
    | cons c cs =>
      by_cases hc : c = 0 <;> simp [strncpy, hc, ih]

/-- On a string without an embedded NUL, `strncpy` stores its first `n`
characters and fills what is left of the `n` bytes with NUL. -/
theorem strncpy_cstring (n : Nat) (s : List Nat) (hs : ∀ c ∈ s, c ≠ 0) :
    strncpy n s = s.take n ++ List.replicate (n - s.length) 0 := by
  induction n generalizing s with
  | zero => cases s <;> simp [strncpy]
  | succ n ih =>
    cases s with
    | nil => simp [strncpy_nil]
    | cons c cs =>
      have hc : c ≠ 0 := hs c (List.mem_cons_self c cs)
      have hcs : ∀ x ∈ cs, x ≠ 0 := fun x hx => hs x (List.mem_cons_of_mem c hx)
      simp [strncpy, hc, ih cs hcs]

theorem strncpy_field (n : Nat) (s : List Nat) (hs : ∀ c ∈ s, c ≠ 0) :
    strncpy n s = if n ≤ s.length then s.take n else s ++ List.replicate (n - s.length) 0 := by
  rw [strncpy_cstring n s hs]
  split
  · next h => simp [Nat.sub_eq_zero_of_le h]
  · next h => rw [List.take_of_length_le (by omega)]

theorem infoPacketImage_fields (type deviceId version : List Nat) (checksum : Nat)
    (ht : type.length = 8) (hd : deviceId.length = 16) (hv : version.length = 16) :
    (infoPacketImage type deviceId version checksum).length = 41
    ∧ (infoPacketImage type deviceId version checksum).take 8 = type
    ∧ ((infoPacketImage type deviceId version checksum).drop 8).take 16 = deviceId
    ∧ ((infoPacketImage type deviceId version checksum).drop 24).take 16 = version
    ∧ (infoPacketImage type deviceId version checksum).getD 40 0 = checksum % 256 := by
  unfold infoPacketImage
  refine ⟨by simp [ht, hd, hv], ?_, ?_, ?_, ?_⟩
  · rw [List.append_assoc, List.append_assoc, ← ht, List.take_left]
  · rw [List.append_assoc, List.append_assoc, ← ht, List.drop_left, ← hd, List.take_left]
  · have h24 : (type ++ deviceId).length = 24 := by simp [ht, hd]
    rw [List.append_assoc (type ++ deviceId), ← h24, List.drop_left, ← hv, List.take_left]
  · have h40 : (type ++ deviceId ++ version).length = 40 := by simp [ht, hd, hv]
    rw [List.getD_append_right _ _ _ _ (by rw [h40]), h40]; rfl

/-- The info packet of `sendDeviceInfo`, by contrast, has no padding:
`sizeof(infoPacket) - 1` is the offset of its checksum byte, and the stored
checksum is the XOR of the 40 bytes before it. -/
theorem sendDeviceInfo_checksum (t : Telemetry) (w : List Nat → Bool)
    (deviceId version : List Nat) (stale : Nat) (h : t.initialized = true) :
    ∃ frame, (t.sendDeviceInfo w deviceId version stale).written = some frame
      ∧ frame.getD 40 0 = calculateChecksum frame 40 := by
  have h40 : (strncpy 8 INFO ++ strncpy 16 deviceId ++ strncpy 16 version).length = 40 := by
    simp [strncpy_length]
  have hlen : ∀ c, (infoPacketImage (strncpy 8 INFO) (strncpy 16 deviceId)
      (strncpy 16 version) c).length = 41 := by
    intro c; simp [infoPacketImage, strncpy_length]
  have htake : ∀ c, (infoPacketImage (strncpy 8 INFO) (strncpy 16 deviceId)
      (strncpy 16 version) c).take sizeofInfoPacket
      = infoPacketImage (strncpy 8 INFO) (strncpy 16 deviceId) (strncpy 16 version) c :=
    fun c => List.take_of_length_le (by rw [hlen]; decide)
  refine ⟨infoPacketImage (strncpy 8 INFO) (strncpy 16 deviceId) (strncpy 16 version)
    (calculateChecksum (infoPacketImage (strncpy 8 INFO) (strncpy 16 deviceId)
      (strncpy 16 version) stale) (sizeofInfoPacket - 1)), ?_, ?_⟩
  · unfold Telemetry.sendDeviceInfo
    simp only [h, Bool.not_true, Bool.false_eq_true, if_false]
    split <;> exact congrArg some (htake _)
  · unfold infoPacketImage
    rw [List.getD_append_right _ _ _ _ (by rw [h40]), h40, Nat.sub_self]
    show calculateChecksum _ (sizeofInfoPacket - 1) % 256 = _
    rw [Nat.mod_eq_of_lt (calculateChecksum_lt _ _)]
    exact calculateChecksum_initial _ _ _ _ (by rw [h40]; decide)

/-- C2 (counterexample): on the freshly constructed, uninitialized Telemetry
each send method returns `false` without writing, and `packetsFailed` is still
0 afterwards, not 1. -/
theorem uninitialized_send_not_counted :
    (Telemetry.ctor.sendData radioUp sampleData zeroPadding).ret = false
    ∧ ¬ ((Telemetry.ctor.sendData radioUp sampleData zeroPadding).state.packetsFailed
          = Telemetry.ctor.packetsFailed + 1)
    ∧ ¬ ((Telemetry.ctor.sendDeviceInfo radioUp longDeviceId VERSION 0).state.packetsFailed
          = Telemetry.ctor.packetsFailed + 1)
    ∧ ¬ ((Telemetry.ctor.sendAlert radioUp 10 60000 []).state.packetsFailed
          = Telemetry.ctor.packetsFailed + 1) := by
  decide

/-- C2 (amended): when `initialized` is false, each of `sendData`,
`sendDeviceInfo` and `sendAlert` returns `false`, makes no radio write and
leaves the whole state, `packetsSent` and `packetsFailed` included, unchanged. -/
theorem uninitialized_send_is_noop (t : Telemetry) (w : List Nat → Bool)
    (data : TelemetryData) (pad : TelemetryPadding) (deviceId version : List Nat)
    (stale alertCode now : Nat) (stack : List Nat) (h : t.initialized = false) :
    t.sendData w data pad = { state := t, written := none, ret := false }
    ∧ t.sendDeviceInfo w deviceId version stale = { state := t, written := none, ret := false }
    ∧ t.sendAlert w alertCode now stack = { state := t, written := none, ret := false } := by
  simp [Telemetry.sendData, Telemetry.sendDeviceInfo, Telemetry.sendAlert, h]

theorem uninitialized_send_is_noop_witness :
    Telemetry.ctor.sendData radioUp sampleData zeroPadding
        = { state := Telemetry.ctor, written := none, ret := false }
    ∧ Telemetry.ctor.sendDeviceInfo radioUp longDeviceId VERSION 0
        = { state := Telemetry.ctor, written := none, ret := false }
    ∧ Telemetry.ctor.sendAlert radioUp 10 60000 []
        = { state := Telemetry.ctor, written := none, ret := false } :=
  uninitialized_send_is_noop Telemetry.ctor radioUp sampleData zeroPadding longDeviceId VERSION
    0 10 60000 [] rfl

/-- C3 (counterexample): with `packetsSent` at 4294967295, the largest
`uint32_t`, a successful `sendData` returns `true` and leaves `packetsSent` at
0: the counter did not increase by 1. -/
theorem packetsSent_wraps :
    (Telemetry.sendData { initialized := true, packetsSent := 4294967295, packetsFailed := 0 }
        radioUp sampleData zeroPadding).ret = true
    ∧ (Telemetry.sendData { initialized := true, packetsSent := 4294967295, packetsFailed := 0 }
        radioUp sampleData zeroPadding).state.packetsSent = 0
    ∧ ¬ ((Telemetry.sendData { initialized := true, packetsSent := 4294967295, packetsFailed := 0 }
        radioUp sampleData zeroPadding).state.packetsSent = 4294967295 + 1) := by
  decide

/-- C3 (amended): on an initialized Telemetry each of `sendData`,
`sendDeviceInfo` and `sendAlert` writes one frame, returns exactly the boolean
the radio write returned, and changes exactly one counter by one modulo 2^32:
`packetsSent` when the write succeeded, `packetsFailed` when it failed, the
other counter and the `initialized` flag staying as they were. -/
theorem send_counts_write_result (t : Telemetry) (w : List Nat → Bool)
    (data : TelemetryData) (pad : TelemetryPadding) (deviceId version : List Nat)
    (stale alertCode now : Nat) (stack : List Nat) (h : t.initialized = true) :
    CountsWrite t w (t.sendData w data pad)
    ∧ CountsWrite t w (t.sendDeviceInfo w deviceId version stale)
    ∧ CountsWrite t w (t.sendAlert w alertCode now stack) := by
  refine ⟨?_, ?_, ?_⟩
  · unfold CountsWrite Telemetry.sendData
    simp only [h, Bool.not_true, Bool.false_eq_true, if_false]
    split
    · next hw => exact ⟨_, rfl, rfl, rfl, fun _ => ⟨rfl, rfl⟩, fun hf => Bool.noConfusion (hw.symm.trans hf)⟩
    · next hw => exact ⟨_, rfl, rfl, rfl, fun ht => absurd ht hw, fun _ => ⟨rfl, rfl⟩⟩
  · unfold CountsWrite Telemetry.sendDeviceInfo
    simp only [h, Bool.not_true, Bool.false_eq_true, if_false]
    split
    · next hw => exact ⟨_, rfl, rfl, rfl, fun _ => ⟨rfl, rfl⟩, fun hf => Bool.noConfusion (hw.symm.trans hf)⟩
    · next hw => exact ⟨_, rfl, rfl, rfl, fun ht => absurd ht hw, fun _ => ⟨rfl, rfl⟩⟩
  · unfold CountsWrite Telemetry.sendAlert
    simp only [h, Bool.not_true, Bool.false_eq_true, if_false]
    split
    · next hw => exact ⟨_, rfl, rfl, rfl, fun _ => ⟨rfl, rfl⟩, fun hf => Bool.noConfusion (hw.symm.trans hf)⟩
    · next hw => exact ⟨_, rfl, rfl, rfl, fun ht => absurd ht hw, fun _ => ⟨rfl, rfl⟩⟩

theorem send_counts_write_result_witness :
    CountsWrite { initialized := true, packetsSent := 7, packetsFailed := 2 } radioDown
      (Telemetry.sendData { initialized := true, packetsSent := 7, packetsFailed := 2 }
        radioDown sampleData zeroPadding)
    ∧ CountsWrite { initialized := true, packetsSent := 7, packetsFailed := 2 } radioDown
      (Telemetry.sendDeviceInfo { initialized := true, packetsSent := 7, packetsFailed := 2 }
        radioDown longDeviceId VERSION 0)
    ∧ CountsWrite { initialized := true, packetsSent := 7, packetsFailed := 2 } radioDown
      (Telemetry.sendAlert { initialized := true, packetsSent := 7, packetsFailed := 2 }
        radioDown 10 60000 []) :=
  send_counts_write_result { initialized := true, packetsSent := 7, packetsFailed := 2 }
    radioDown sampleData zeroPadding longDeviceId VERSION 0 10 60000 [] rfl

/-- C10: on an initialized Telemetry, for every pair of C strings,
`sendDeviceInfo` hands the radio a 41-byte frame whose `deviceId` field
(offsets 8..23) is exactly 16 bytes, namely the first 16 characters of the
device id when it has 16 or more, and the device id followed by NUL bytes when
it is shorter; likewise the `version` field (offsets 24..39); the `type` field
before them is untouched ("INFO" and four NULs), and the value returned is what
the radio write returned for that frame. -/
theorem sendDeviceInfo_truncates_fields (t : Telemetry) (w : List Nat → Bool)
    (deviceId version : List Nat) (stale : Nat) (h : t.initialized = true)
    (hd : ∀ c ∈ deviceId, c ≠ 0) (hv : ∀ c ∈ version, c ≠ 0) :
    ∃ frame, (t.sendDeviceInfo w deviceId version stale).written = some frame
      ∧ frame.length = 41
      ∧ frame.take 8 = [73, 78, 70, 79, 0, 0, 0, 0]
      ∧ ((frame.drop 8).take 16).length = 16
      ∧ (frame.drop 8).take 16
          = (if 16 ≤ deviceId.length then deviceId.take 16
             else deviceId ++ List.replicate (16 - deviceId.length) 0)
      ∧ ((frame.drop 24).take 16).length = 16
      ∧ (frame.drop 24).take 16
          = (if 16 ≤ version.length then version.take 16
             else version ++ List.replicate (16 - version.length) 0)
      ∧ (t.sendDeviceInfo w deviceId version stale).ret = w frame := by
  have hf := fun c => infoPacketImage_fields (strncpy 8 INFO) (strncpy 16 deviceId)
    (strncpy 16 version) c (strncpy_length _ _) (strncpy_length _ _) (strncpy_length _ _)
  have htake : ∀ c, (infoPacketImage (strncpy 8 INFO) (strncpy 16 deviceId)
      (strncpy 16 version) c).take sizeofInfoPacket
      = infoPacketImage (strncpy 8 INFO) (strncpy 16 deviceId) (strncpy 16 version) c :=
    fun c => List.take_of_length_le (by rw [(hf c).1]; decide)
  refine ⟨infoPacketImage (strncpy 8 INFO) (strncpy 16 deviceId) (strncpy 16 version)
    (calculateChecksum (infoPacketImage (strncpy 8 INFO) (strncpy 16 deviceId)
      (strncpy 16 version) stale) (sizeofInfoPacket - 1)), ?_, (hf _).1, ?_, ?_, ?_, ?_, ?_, ?_⟩
  · unfold Telemetry.sendDeviceInfo
    simp only [h, Bool.not_true, Bool.false_eq_true, if_false]
    split <;> exact congrArg some (htake _)
  · rw [(hf _).2.1]; decide
  · rw [(hf _).2.2.1, strncpy_length]
  · rw [(hf _).2.2.1]; exact strncpy_field 16 deviceId hd
  · rw [(hf _).2.2.2.1, strncpy_length]
  · rw [(hf _).2.2.2.1]; exact strncpy_field 16 version hv
  · unfold Telemetry.sendDeviceInfo
    simp only [h, Bool.not_true, Bool.false_eq_true, if_false]
    split <;> exact congrArg w (htake _)

theorem sendDeviceInfo_truncates_fields_witness :
    ∃ frame, (Telemetry.sendDeviceInfo { initialized := true, packetsSent := 0, packetsFailed := 0 }
        radioUp longDeviceId VERSION 0).written = some frame
      ∧ frame.length = 41
      ∧ frame.take 8 = [73, 78, 70, 79, 0, 0, 0, 0]
      ∧ ((frame.drop 8).take 16).length = 16
      ∧ (frame.drop 8).take 16
          = (if 16 ≤ longDeviceId.length then longDeviceId.take 16
             else longDeviceId ++ List.replicate (16 - longDeviceId.length) 0)
      ∧ ((frame.drop 24).take 16).length = 16
      ∧ (frame.drop 24).take 16
          = (if 16 ≤ VERSION.length then VERSION.take 16
             else VERSION ++ List.replicate (16 - VERSION.length) 0)
      ∧ (Telemetry.sendDeviceInfo { initialized := true, packetsSent := 0, packetsFailed := 0 }
          radioUp longDeviceId VERSION 0).ret = radioUp frame :=
  sendDeviceInfo_truncates_fields { initialized := true, packetsSent := 0, packetsFailed := 0 }
    radioUp longDeviceId VERSION 0 rfl (by decide) (by decide)

/-! # Properties of the power management -/

theorem constrain_of_mem (x lo hi : ℚ) (h1 : lo ≤ x) (h2 : x ≤ hi) : constrain x lo hi = x := by
  unfold constrain
  rw [if_neg (not_lt.mpr h1), if_neg (not_lt.mpr h2)]

theorem toUint8_of_nonneg (x : ℚ) (h0 : 0 ≤ x) (h : x < 256) : toUint8 x = ⌊x⌋.toNat := by
  unfold toUint8
  rw [if_pos h0]
  apply Nat.mod_eq_of_lt
  have h1 : ⌊x⌋ < 256 := Int.floor_lt.mpr (by exact_mod_cast h)
  have h2 : 0 ≤ ⌊x⌋ := Int.floor_nonneg.mpr h0
  omega

/-- Between the two thresholds `calculatePercent` is the integer part of the
linear interpolation. -/
theorem calculatePercent_interp (v : ℚ) (h1 : BATTERY_CRITICAL_VOLTAGE < v)
    (h2 : v < BATTERY_MAX_VOLTAGE) :
    PowerManagement.calculatePercent v
      = ⌊(v - BATTERY_CRITICAL_VOLTAGE) / (BATTERY_MAX_VOLTAGE - BATTERY_CRITICAL_VOLTAGE)
          * 100⌋.toNat := by
  have hr : (0 : ℚ) < BATTERY_MAX_VOLTAGE - BATTERY_CRITICAL_VOLTAGE := by
    norm_num [BATTERY_MAX_VOLTAGE, BATTERY_CRITICAL_VOLTAGE]
  have hp0 : 0 ≤ (v - BATTERY_CRITICAL_VOLTAGE)
      / (BATTERY_MAX_VOLTAGE - BATTERY_CRITICAL_VOLTAGE) * 100 := by
    have : 0 ≤ v - BATTERY_CRITICAL_VOLTAGE := by linarith
    positivity
  have hp1 : (v - BATTERY_CRITICAL_VOLTAGE)
      / (BATTERY_MAX_VOLTAGE - BATTERY_CRITICAL_VOLTAGE) * 100 ≤ 100 := by
    have : (v - BATTERY_CRITICAL_VOLTAGE)
        / (BATTERY_MAX_VOLTAGE - BATTERY_CRITICAL_VOLTAGE) ≤ 1 := by
      rw [div_le_one hr]; linarith
    linarith
  unfold PowerManagement.calculatePercent
  rw [if_neg (not_le.mpr h2), if_neg (not_le.mpr h1)]
  simp only
  have h100 : (100.0 : ℚ) = 100 := by norm_num
  rw [h100, constrain_of_mem _ _ _ hp0 hp1, toUint8_of_nonneg _ hp0 (by linarith)]

/-- C4: `calculatePercent` returns 100 for every voltage at or above
`BATTERY_MAX_VOLTAGE` (12.6) and 0 for every voltage at or below
`BATTERY_CRITICAL_VOLTAGE` (9.9). -/
theorem calculatePercent_extremes (voltage : ℚ) :
    (voltage ≥ BATTERY_MAX_VOLTAGE → PowerManagement.calculatePercent voltage = 100)
    ∧ (voltage ≤ BATTERY_CRITICAL_VOLTAGE → PowerManagement.calculatePercent voltage = 0) := by
  constructor
  · intro h
    unfold PowerManagement.calculatePercent
    rw [if_pos h]
  · intro h
    have hlt : ¬ voltage ≥ BATTERY_MAX_VOLTAGE := by
      have : BATTERY_CRITICAL_VOLTAGE < BATTERY_MAX_VOLTAGE := by
        norm_num [BATTERY_MAX_VOLTAGE, BATTERY_CRITICAL_VOLTAGE]
      intro h'
      exact absurd (lt_of_lt_of_le this h') (not_lt.mpr h)
    unfold PowerManagement.calculatePercent
    rw [if_neg hlt, if_pos h]

theorem calculatePercent_extremes_witness :
    ((13 : ℚ) ≥ BATTERY_MAX_VOLTAGE ∧ PowerManagement.calculatePercent 13 = 100)
    ∧ ((9.9 : ℚ) ≤ BATTERY_CRITICAL_VOLTAGE ∧ PowerManagement.calculatePercent 9.9 = 0) :=
  ⟨⟨by norm_num [BATTERY_MAX_VOLTAGE],
      (calculatePercent_extremes 13).1 (by norm_num [BATTERY_MAX_VOLTAGE])⟩,
   ⟨le_refl _, (calculatePercent_extremes 9.9).2 (le_refl _)⟩⟩

theorem readVoltage_calls (adc : Nat → Nat) :
    cpuRequests (PowerManagement.readVoltage adc).2 = []
    ∧ adcReads (PowerManagement.readVoltage adc).2 = 10 := by
  constructor <;> rfl

theorem readVoltage_eq (adc : Nat → Nat) :
    (PowerManagement.readVoltage adc).1
      = ((adcSum adc / 10 : Nat) : ℚ) / 4095.0 * 3.3 * VOLTAGE_DIVIDER_RATIO := rfl

theorem readVoltage_adcFull : (PowerManagement.readVoltage adcFull).1 = 792 / 65 := by
  have h : adcSum adcFull / 10 = 3600 := by decide
  rw [readVoltage_eq, h]
  norm_num [ VOLTAGE_DIVIDER_RATIO]

theorem readVoltage_adcLow : (PowerManagement.readVoltage adcLow).1 = 132 / 13 := by
  have h : adcSum adcLow / 10 = 3000 := by decide
  rw [readVoltage_eq, h]
  norm_num [ VOLTAGE_DIVIDER_RATIO]

/-- When the interval has elapsed, `getBatteryVoltage` samples. -/
theorem getBatteryVoltage_due (s : PowerManagement) (now : Nat) (adc : Nat → Nat)
    (h : POWER_CHECK_INTERVAL ≤ elapsed s now) :
    s.getBatteryVoltage now adc
      = { state :=
            { currentVoltage := (PowerManagement.readVoltage adc).1,
              batteryPercent :=
                PowerManagement.calculatePercent (PowerManagement.readVoltage adc).1,
              temperature := s.temperature, lowPowerMode := s.lowPowerMode,
              lastVoltageCheck := now % UINT32_MOD },
          ret := (PowerManagement.readVoltage adc).1,
          calls := HwCall.millis :: (PowerManagement.readVoltage adc).2 } := by
  unfold elapsed at h
  unfold PowerManagement.getBatteryVoltage
  simp only [ge_iff_le, h, if_true]

/-- When the interval has not elapsed, `getBatteryVoltage` only reads the clock. -/
theorem getBatteryVoltage_cached (s : PowerManagement) (now : Nat) (adc : Nat → Nat)
    (h : elapsed s now < POWER_CHECK_INTERVAL) :
    s.getBatteryVoltage now adc
      = { state := s, ret := s.currentVoltage, calls := [HwCall.millis] } := by
  unfold elapsed at h
  unfold PowerManagement.getBatteryVoltage
  simp only [ge_iff_le, not_le.mpr h, if_false]

theorem getBatteryVoltage_frame (s : PowerManagement) (now : Nat) (adc : Nat → Nat) :
    (s.getBatteryVoltage now adc).state.lowPowerMode = s.lowPowerMode
    ∧ cpuRequests (s.getBatteryVoltage now adc).calls = []
    ∧ (s.getBatteryVoltage now adc).ret
        = (s.getBatteryVoltage now adc).state.currentVoltage := by
  by_cases h : POWER_CHECK_INTERVAL ≤ elapsed s now
  · rw [getBatteryVoltage_due s now adc h]
    exact ⟨rfl, rfl, rfl⟩
  · rw [getBatteryVoltage_cached s now adc (not_le.mp h)]
    exact ⟨rfl, rfl, rfl⟩

theorem cpuRequests_append (a b : List HwCall) :
    cpuRequests (a ++ b) = cpuRequests a ++ cpuRequests b := by
  simp [cpuRequests, List.filterMap_append]

/-- The state `update` leaves is the state `getBatteryVoltage` leaves, with the
low-power flag set to `isBatteryLow()`. -/
theorem update_state (s : PowerManagement) (now : Nat) (adc : Nat → Nat) :
    (s.update now adc).state
      = { (s.getBatteryVoltage now adc).state with
          lowPowerMode := (s.getBatteryVoltage now adc).state.isBatteryLow } := by
  unfold PowerManagement.update PowerManagement.enterLowPowerMode
    PowerManagement.exitLowPowerMode
  simp only
  cases h1 : (s.getBatteryVoltage now adc).state.isBatteryLow <;>
    cases h2 : (s.getBatteryVoltage now adc).state.lowPowerMode <;> simp [h1, h2] <;>
    rw [← h2]

theorem update_voltage (s : PowerManagement) (now : Nat) (adc : Nat → Nat) :
    (s.update now adc).state.currentVoltage = (s.getBatteryVoltage now adc).ret := by
  rw [update_state, (getBatteryVoltage_frame s now adc).2.2]

theorem update_lowPowerMode (s : PowerManagement) (now : Nat) (adc : Nat → Nat) :
    (s.update now adc).state.lowPowerMode = (s.update now adc).state.isBatteryLow := by
  rw [update_state]; rfl

theorem update_cpuRequests (s : PowerManagement) (now : Nat) (adc : Nat → Nat) :
    cpuRequests (s.update now adc).calls
      = if s.lowPowerMode = (s.update now adc).state.lowPowerMode then []
        else if (s.update now adc).state.lowPowerMode = true then [80] else [240] := by
  have hg := getBatteryVoltage_frame s now adc
  rw [update_state, ← hg.1]
  unfold PowerManagement.update PowerManagement.enterLowPowerMode
    PowerManagement.exitLowPowerMode
  simp only
  cases h1 : (s.getBatteryVoltage now adc).state.isBatteryLow <;>
    cases h2 : (s.getBatteryVoltage now adc).state.lowPowerMode <;>
    simp [h1, h2, cpuRequests_append, hg.2.1] <;> rfl

theorem calculatePercent_of_le_critical (voltage : ℚ)
    (h : voltage ≤ BATTERY_CRITICAL_VOLTAGE) :
    PowerManagement.calculatePercent voltage = 0 := by
  have hlt : ¬ voltage ≥ BATTERY_MAX_VOLTAGE := by
    have : BATTERY_CRITICAL_VOLTAGE < BATTERY_MAX_VOLTAGE := by
      norm_num [BATTERY_MAX_VOLTAGE, BATTERY_CRITICAL_VOLTAGE]
    intro h'
    exact absurd (lt_of_lt_of_le this h') (not_lt.mpr h)
  unfold PowerManagement.calculatePercent
  rw [if_neg hlt, if_pos h]

/-- The state reached by the constructor and `begin()` at 12.18 V: `begin()`
stores the voltage and the percentage, and leaves `lastVoltageCheck` at 0. -/
theorem afterBegin_eq :
    afterBegin
      = { currentVoltage := 792 / 65,
          batteryPercent := PowerManagement.calculatePercent (792 / 65), temperature := 25.0,
          lowPowerMode := false, lastVoltageCheck := 0 } := by
  unfold afterBegin PowerManagement.begin
  simp only [readVoltage_adcFull]
  rfl

theorem update_low_voltage (s : PowerManagement) (now : Nat)
    (h : POWER_CHECK_INTERVAL ≤ elapsed s now) :
    (s.update now adcLow).state.currentVoltage = 132 / 13 := by
  rw [update_voltage, getBatteryVoltage_due _ _ _ h]
  exact readVoltage_adcLow

/-- C6: starting with the low-power flag off, an `update()` that observes a
voltage below `BATTERY_LOW_VOLTAGE` sets the flag and issues exactly one CPU
frequency request, `setCpuFrequencyMhz(80)`; a second `update()` that again
observes a voltage below the threshold leaves the flag set and issues no CPU
frequency request.  And `enterLowPowerMode()` called with the flag already set
changes nothing and makes no call. -/
theorem update_enters_low_power_once (s : PowerManagement) (now now2 : Nat)
    (adc adc2 : Nat → Nat) (hoff : s.lowPowerMode = false)
    (hlow : (s.update now adc).state.currentVoltage < BATTERY_LOW_VOLTAGE)
    (hlow2 : ((s.update now adc).state.update now2 adc2).state.currentVoltage
      < BATTERY_LOW_VOLTAGE) :
    (s.update now adc).state.lowPowerMode = true
    ∧ cpuRequests (s.update now adc).calls = [80]
    ∧ ((s.update now adc).state.update now2 adc2).state.lowPowerMode = true
    ∧ cpuRequests ((s.update now adc).state.update now2 adc2).calls = []
    ∧ (∀ p : PowerManagement, p.lowPowerMode = true →
        p.enterLowPowerMode.state = p ∧ p.enterLowPowerMode.calls = []) := by
  have h1 : (s.update now adc).state.lowPowerMode = true := by
    rw [update_lowPowerMode]; exact decide_eq_true hlow
  have h2 : ((s.update now adc).state.update now2 adc2).state.lowPowerMode = true := by
    rw [update_lowPowerMode]; exact decide_eq_true hlow2
  refine ⟨h1, ?_, h2, ?_, ?_⟩
  · rw [update_cpuRequests, h1, hoff]; rfl
  · rw [update_cpuRequests, h2, h1]; rfl
  · intro p hp
    unfold PowerManagement.enterLowPowerMode
    rw [if_pos hp]
    exact ⟨rfl, rfl⟩

theorem update_enters_low_power_once_witness :
    PowerManagement.ctor.lowPowerMode = false
    ∧ (PowerManagement.ctor.update 5000 adcLow).state.currentVoltage < BATTERY_LOW_VOLTAGE
    ∧ ((PowerManagement.ctor.update 5000 adcLow).state.update 10000 adcLow).state.currentVoltage
        < BATTERY_LOW_VOLTAGE
    ∧ (PowerManagement.ctor.update 5000 adcLow).state.lowPowerMode = true
    ∧ cpuRequests (PowerManagement.ctor.update 5000 adcLow).calls = [80]
    ∧ ((PowerManagement.ctor.update 5000 adcLow).state.update 10000 adcLow).state.lowPowerMode
        = true
    ∧ cpuRequests ((PowerManagement.ctor.update 5000 adcLow).state.update 10000 adcLow).calls
        = []
    ∧ (∀ p : PowerManagement, p.lowPowerMode = true →
        p.enterLowPowerMode.state = p ∧ p.enterLowPowerMode.calls = []) :=
  have h1 : (PowerManagement.ctor.update 5000 adcLow).state.currentVoltage
      < BATTERY_LOW_VOLTAGE := by
    rw [update_low_voltage _ _ (by decide)]; norm_num [BATTERY_LOW_VOLTAGE]
  have hlast : (PowerManagement.ctor.update 5000 adcLow).state.lastVoltageCheck = 5000 := by
    rw [update_state, getBatteryVoltage_due _ _ _ (by decide)]; rfl
  have h2 : ((PowerManagement.ctor.update 5000 adcLow).state.update 10000
      adcLow).state.currentVoltage < BATTERY_LOW_VOLTAGE := by
    rw [update_low_voltage _ _ (by unfold elapsed; rw [hlast]; decide)]
    norm_num [BATTERY_LOW_VOLTAGE]
  ⟨rfl, h1, h2,
    update_enters_low_power_once PowerManagement.ctor 5000 10000 adcLow adcLow rfl h1 h2⟩

/-- C8: for every prior state, clock value and ADC readings, after `update()`
the low-power flag is set if and only if the cached voltage (the one
`getBatteryVoltage()` returned) is below `BATTERY_LOW_VOLTAGE`, and the CPU
frequency requests issued are: none when the flag did not change, exactly
`setCpuFrequencyMhz(80)` when it went from off to on, exactly
`setCpuFrequencyMhz(240)` when it went from on to off. -/
theorem update_flag_tracks_voltage (s : PowerManagement) (now : Nat) (adc : Nat → Nat) :
    ((s.update now adc).state.lowPowerMode = true
      ↔ (s.update now adc).state.currentVoltage < BATTERY_LOW_VOLTAGE)
    ∧ (s.update now adc).state.currentVoltage = (s.getBatteryVoltage now adc).ret
    ∧ cpuRequests (s.update now adc).calls
        = (if s.lowPowerMode = (s.update now adc).state.lowPowerMode then []
           else if (s.update now adc).state.lowPowerMode = true then [80] else [240]) := by
  refine ⟨?_, update_voltage s now adc, update_cpuRequests s now adc⟩
  rw [update_lowPowerMode]
  unfold PowerManagement.isBatteryLow
  exact decide_eq_true_iff

/-- The rate limit of `getBatteryVoltage()` against its own time stamp: when
the unsigned difference between `millis()` and `lastVoltageCheck` is below
`POWER_CHECK_INTERVAL` the state is unchanged, the cached voltage is returned
and the ADC is not read; otherwise the ADC is read ten times and the time
stamp becomes the current time. -/
theorem getBatteryVoltage_rate_limit (s : PowerManagement) (now : Nat) (adc : Nat → Nat) :
    (elapsed s now < POWER_CHECK_INTERVAL →
      (s.getBatteryVoltage now adc).state = s
      ∧ (s.getBatteryVoltage now adc).ret = s.currentVoltage
      ∧ adcReads (s.getBatteryVoltage now adc).calls = 0)
    ∧ (POWER_CHECK_INTERVAL ≤ elapsed s now →
      (s.getBatteryVoltage now adc).state.currentVoltage = (PowerManagement.readVoltage adc).1
      ∧ (s.getBatteryVoltage now adc).state.lastVoltageCheck = now % UINT32_MOD
      ∧ adcReads (s.getBatteryVoltage now adc).calls = 10) := by
  constructor
  · intro h
    rw [getBatteryVoltage_cached s now adc h]
    exact ⟨rfl, rfl, rfl⟩
  · intro h
    rw [getBatteryVoltage_due s now adc h]
    exact ⟨rfl, rfl, rfl⟩

/-- C9 (code bug): `begin()` samples the ADC (ten reads, 12.18 V) but leaves
`lastVoltageCheck` at 0, so a `getBatteryVoltage()` at `millis() = 5000`
samples again (ten reads, returning 10.15 V and moving the time stamp to 5000)
however shortly before 5000 ms `begin()` took its sample. -/
theorem begin_sample_not_timestamped :
    adcReads (PowerManagement.ctor.begin adcFull).calls = 10
    ∧ afterBegin.lastVoltageCheck = 0
    ∧ afterBegin.currentVoltage = 792 / 65
    ∧ adcReads (afterBegin.getBatteryVoltage 5000 adcLow).calls = 10
    ∧ (afterBegin.getBatteryVoltage 5000 adcLow).ret = 132 / 13
    ∧ (afterBegin.getBatteryVoltage 5000 adcLow).state.lastVoltageCheck = 5000 := by
  have hd : POWER_CHECK_INTERVAL ≤ elapsed afterBegin 5000 := by
    rw [afterBegin_eq]; decide
  refine ⟨rfl, by rw [afterBegin_eq], by rw [afterBegin_eq], ?_, ?_, ?_⟩
  · rw [getBatteryVoltage_due _ _ _ hd]; rfl
  · rw [getBatteryVoltage_due _ _ _ hd]; exact readVoltage_adcLow
  · rw [getBatteryVoltage_due _ _ _ hd]; rfl

/-! # Properties of the RF transmitter, the scenario, the sampling and the cached percentage -/

/-- What `setPower` records for each request. -/
theorem setPower_recorded (s : RFTransmitter) (power : Nat) :
    (s.setPower power).powerLevel
      = (if power = 25 then 25 else if power = 200 then 200
         else if power = 600 then 88 else 25)
    ∧ (s.setPower power).currentChannel = s.currentChannel
    ∧ (s.setPower power).rssiValue = s.rssiValue := by
  unfold RFTransmitter.setPower
  by_cases h1 : power = 25
  · subst h1; simp
  · by_cases h2 : power = 200
    · subst h2; simp
    · by_cases h3 : power = 600
      · subst h3; simp
      · simp [h1, h2, h3]

/-- C12 (code bug): after `setPower(600)` on the constructed transmitter the
recorded power level is 88 (600 converted to `uint8_t`), not 600, and
`getRSSI()` returns `rssiValue`, which is 0, not -5; after `setPower(25)` and
`setPower(200)` it returns -20 and -10. -/
theorem setPower_600_truncated :
    (RFTransmitter.ctor.setPower 600).powerLevel = 88
    ∧ ¬ ((RFTransmitter.ctor.setPower 600).powerLevel = 600)
    ∧ (RFTransmitter.ctor.setPower 600).getRSSI = 0
    ∧ ¬ ((RFTransmitter.ctor.setPower 600).getRSSI = -5)
    ∧ (RFTransmitter.ctor.setPower 25).getRSSI = -20
    ∧ (RFTransmitter.ctor.setPower 200).getRSSI = -10 := by
  decide

theorem setChannel_currentChannel (s : RFTransmitter) (channel : Nat) :
    (s.setChannel channel).currentChannel
      = if 1 ≤ channel ∧ channel ≤ 8 then channel else s.currentChannel := by
  unfold RFTransmitter.setChannel
  by_cases h : channel < 1 ∨ channel > 8
  · rw [if_pos h, if_neg (by omega)]
  · rw [if_neg h, if_pos (by omega)]

theorem call_channel_range (s : RFTransmitter) (c : RFCall)
    (h : 1 ≤ s.currentChannel ∧ s.currentChannel ≤ 8) :
    1 ≤ (s.call c).currentChannel ∧ (s.call c).currentChannel ≤ 8 := by
  cases c with
  | begin => exact h
  | setChannel channel =>
    show 1 ≤ (s.setChannel channel).currentChannel ∧ (s.setChannel channel).currentChannel ≤ 8
    rw [setChannel_currentChannel]
    split
    · next hc => exact hc
    · exact h
  | setPower power =>
    show 1 ≤ (s.setPower power).currentChannel ∧ (s.setPower power).currentChannel ≤ 8
    rw [(setPower_recorded s power).2.1]; exact h
  | transmitFrame _ _ => exact h
  | getRSSI => exact h

theorem foldl_channel_range (calls : List RFCall) (s : RFTransmitter)
    (h : 1 ≤ s.currentChannel ∧ s.currentChannel ≤ 8) :
    1 ≤ (calls.foldl RFTransmitter.call s).currentChannel
    ∧ (calls.foldl RFTransmitter.call s).currentChannel ≤ 8 := by
  induction calls generalizing s with
  | nil => exact h
  | cons c cs ih => exact ih (s.call c) (call_channel_range s c h)

theorem getFrequency_table (channel : Nat) (h1 : 1 ≤ channel) (h8 : channel ≤ 8) :
    RFTransmitter.getFrequency channel = RF_CHANNEL_FREQ.getD (channel - 1) 0
    ∧ RFTransmitter.getFrequency channel
        = [5705, 5685, 5665, 5645, 5885, 5905, 5925, 5945].getD (channel - 1) 0 := by
  unfold RFTransmitter.getFrequency
  rw [if_pos ⟨h1, h8⟩]
  exact ⟨rfl, rfl⟩

/-- C13: for every channel outside 1..8 `setChannel` leaves the transmitter
as it was, so `getChannel()` returns what it returned before; for every
channel in 1..8 `getChannel()` returns that channel afterwards and
`getFrequency` maps it to entry `channel - 1` of the table 5705, 5685, 5665,
5645, 5885, 5905, 5925, 5945; and in every state reached from the constructor
by calls of `begin`, `setChannel`, `setPower`, `transmitFrame` and `getRSSI`
the current channel is within 1..8. -/
theorem setChannel_rejects_out_of_range (s : RFTransmitter) (channel : Nat)
    (calls : List RFCall) :
    ((channel < 1 ∨ 8 < channel) →
      s.setChannel channel = s ∧ (s.setChannel channel).getChannel = s.getChannel)
    ∧ ((1 ≤ channel ∧ channel ≤ 8) →
      (s.setChannel channel).getChannel = channel
      ∧ RFTransmitter.getFrequency channel
          = [5705, 5685, 5665, 5645, 5885, 5905, 5925, 5945].getD (channel - 1) 0)
    ∧ (1 ≤ (RFTransmitter.reach calls).getChannel
        ∧ (RFTransmitter.reach calls).getChannel ≤ 8) := by
  refine ⟨?_, ?_, ?_⟩
  · intro h
    have : s.setChannel channel = s := by
      unfold RFTransmitter.setChannel
      rw [if_pos h]
    exact ⟨this, by rw [this]⟩
  · intro h
    refine ⟨?_, (getFrequency_table channel h.1 h.2).2⟩
    show (s.setChannel channel).currentChannel = channel
    rw [setChannel_currentChannel, if_pos h]
  · exact foldl_channel_range calls RFTransmitter.ctor ⟨le_refl _, by decide⟩

theorem setChannel_rejects_out_of_range_witness :
    (((9 : Nat) < 1 ∨ 8 < 9)
      ∧ (RFTransmitter.ctor.setChannel 5).setChannel 9 = RFTransmitter.ctor.setChannel 5
      ∧ ((RFTransmitter.ctor.setChannel 5).setChannel 9).getChannel
          = (RFTransmitter.ctor.setChannel 5).getChannel)
    ∧ ((1 ≤ 5 ∧ 5 ≤ 8)
      ∧ (RFTransmitter.ctor.setChannel 5).getChannel = 5
      ∧ RFTransmitter.getFrequency 5
          = [5705, 5685, 5665, 5645, 5885, 5905, 5925, 5945].getD (5 - 1) 0)
    ∧ (1 ≤ (RFTransmitter.reach [RFCall.begin, RFCall.setChannel 0, RFCall.setChannel 7,
          RFCall.setPower 600, RFCall.setChannel 200]).getChannel
        ∧ (RFTransmitter.reach [RFCall.begin, RFCall.setChannel 0, RFCall.setChannel 7,
          RFCall.setPower 600, RFCall.setChannel 200]).getChannel ≤ 8) :=
  ⟨⟨by decide,
      (setChannel_rejects_out_of_range (RFTransmitter.ctor.setChannel 5) 9 []).1 (by decide)⟩,
   ⟨by decide,
      (setChannel_rejects_out_of_range RFTransmitter.ctor 5 []).2.1 (by decide)⟩,
   (setChannel_rejects_out_of_range RFTransmitter.ctor 0
      [RFCall.begin, RFCall.setChannel 0, RFCall.setChannel 7, RFCall.setPower 600,
        RFCall.setChannel 200]).2.2⟩

theorem calculatePercent_of_ge_max (voltage : ℚ) (h : voltage ≥ BATTERY_MAX_VOLTAGE) :
    PowerManagement.calculatePercent voltage = 100 := by
  unfold PowerManagement.calculatePercent
  rw [if_pos h]

theorem calculatePercent_le (voltage : ℚ) : PowerManagement.calculatePercent voltage ≤ 100 := by
  by_cases h2 : voltage ≥ BATTERY_MAX_VOLTAGE
  · rw [calculatePercent_of_ge_max voltage h2]
  · by_cases h1 : voltage ≤ BATTERY_CRITICAL_VOLTAGE
    · rw [calculatePercent_of_le_critical voltage h1]; omega
    · have hv1 := not_le.mp h1
      have hv2 : voltage < BATTERY_MAX_VOLTAGE := not_le.mp h2
      have hr : (0 : ℚ) < BATTERY_MAX_VOLTAGE - BATTERY_CRITICAL_VOLTAGE := by
        norm_num [BATTERY_MAX_VOLTAGE, BATTERY_CRITICAL_VOLTAGE]
      rw [calculatePercent_interp voltage hv1 hv2]
      have hp : (voltage - BATTERY_CRITICAL_VOLTAGE)
          / (BATTERY_MAX_VOLTAGE - BATTERY_CRITICAL_VOLTAGE) * 100 < 100 := by
        have : (voltage - BATTERY_CRITICAL_VOLTAGE)
            / (BATTERY_MAX_VOLTAGE - BATTERY_CRITICAL_VOLTAGE) < 1 := by
          rw [div_lt_one hr]; linarith
        linarith
      have hf : ⌊(voltage - BATTERY_CRITICAL_VOLTAGE)
          / (BATTERY_MAX_VOLTAGE - BATTERY_CRITICAL_VOLTAGE) * 100⌋ < 100 :=
        Int.floor_lt.mpr (by exact_mod_cast hp)
      omega

theorem calculatePercent_floor (v : ℚ) (n : Nat) (h1 : BATTERY_CRITICAL_VOLTAGE < v)
    (h2 : v < BATTERY_MAX_VOLTAGE)
    (hlo : (n : ℚ) ≤ (v - BATTERY_CRITICAL_VOLTAGE)
      / (BATTERY_MAX_VOLTAGE - BATTERY_CRITICAL_VOLTAGE) * 100)
    (hhi : (v - BATTERY_CRITICAL_VOLTAGE)
      / (BATTERY_MAX_VOLTAGE - BATTERY_CRITICAL_VOLTAGE) * 100 < (n : ℚ) + 1) :
    PowerManagement.calculatePercent v = n := by
  rw [calculatePercent_interp v h1 h2]
  have : ⌊(v - BATTERY_CRITICAL_VOLTAGE)
      / (BATTERY_MAX_VOLTAGE - BATTERY_CRITICAL_VOLTAGE) * 100⌋ = (n : ℤ) := by
    rw [Int.floor_eq_iff]
    exact ⟨by exact_mod_cast hlo, by exact_mod_cast hhi⟩
  rw [this]; rfl

theorem calculatePercent_11_1 : PowerManagement.calculatePercent 11.1 = 44 := by
  apply calculatePercent_floor <;> norm_num [BATTERY_CRITICAL_VOLTAGE, BATTERY_MAX_VOLTAGE]

theorem calculatePercent_10_4 : PowerManagement.calculatePercent 10.4 = 18 := by
  apply calculatePercent_floor <;> norm_num [BATTERY_CRITICAL_VOLTAGE, BATTERY_MAX_VOLTAGE]

/-- With the voltage that `readVoltage()` returns, `getBatteryVoltageOf` leaves
the state that `getBatteryVoltage` leaves. -/
theorem getBatteryVoltage_eq_getBatteryVoltageOf (s : PowerManagement) (now : Nat)
    (adc : Nat → Nat) :
    (s.getBatteryVoltage now adc).state
      = s.getBatteryVoltageOf now (PowerManagement.readVoltage adc).1 := by
  by_cases h : POWER_CHECK_INTERVAL ≤ elapsed s now
  · rw [getBatteryVoltage_due s now adc h]
    unfold elapsed at h
    unfold PowerManagement.getBatteryVoltageOf
    simp only [ge_iff_le, h, if_true]
  · rw [getBatteryVoltage_cached s now adc (not_le.mp h)]
    unfold elapsed at h
    unfold PowerManagement.getBatteryVoltageOf
    simp only [ge_iff_le, h, if_false]

theorem updateOf_state (s : PowerManagement) (now : Nat) (v : ℚ) :
    s.updateOf now v
      = { s.getBatteryVoltageOf now v with
          lowPowerMode := (s.getBatteryVoltageOf now v).isBatteryLow } := by
  unfold PowerManagement.updateOf PowerManagement.enterLowPowerMode
    PowerManagement.exitLowPowerMode
  simp only
  cases h1 : (s.getBatteryVoltageOf now v).isBatteryLow <;>
    cases h2 : (s.getBatteryVoltageOf now v).lowPowerMode <;> simp [h1, h2] <;>
    rw [← h2]

/-- The state `update()` leaves is the one `updateOf` leaves for the voltage
that `readVoltage()` returns for the ADC readings. -/
theorem update_eq_updateOf (s : PowerManagement) (now : Nat) (adc : Nat → Nat) :
    (s.update now adc).state = s.updateOf now (PowerManagement.readVoltage adc).1 := by
  rw [update_state, updateOf_state, getBatteryVoltage_eq_getBatteryVoltageOf]

theorem updateOf_due (s : PowerManagement) (now : Nat) (v : ℚ)
    (h : POWER_CHECK_INTERVAL ≤ elapsed s now) :
    s.updateOf now v
      = { currentVoltage := v, batteryPercent := PowerManagement.calculatePercent v,
          temperature := s.temperature, lowPowerMode := decide (v < BATTERY_LOW_VOLTAGE),
          lastVoltageCheck := now % UINT32_MOD } := by
  rw [updateOf_state]
  unfold elapsed at h
  unfold PowerManagement.getBatteryVoltageOf
  simp only [ge_iff_le, h, if_true]
  rfl

theorem tick1_eq :
    tick1
      = { currentVoltage := 12.6, batteryPercent := 100, temperature := 25.0,
          lowPowerMode := false, lastVoltageCheck := 5000 } := by
  unfold tick1
  rw [updateOf_due _ _ _ (by decide),
    calculatePercent_of_ge_max 12.6 (by norm_num [BATTERY_MAX_VOLTAGE]),
    decide_eq_false (by norm_num [BATTERY_LOW_VOLTAGE] : ¬ ((12.6 : ℚ) < BATTERY_LOW_VOLTAGE))]
  rfl

theorem tick2_eq :
    tick2
      = { currentVoltage := 11.1, batteryPercent := 44, temperature := 25.0,
          lowPowerMode := false, lastVoltageCheck := 10000 } := by
  unfold tick2
  rw [updateOf_due _ _ _ (by rw [tick1_eq]; decide), calculatePercent_11_1,
    decide_eq_false (by norm_num [BATTERY_LOW_VOLTAGE] : ¬ ((11.1 : ℚ) < BATTERY_LOW_VOLTAGE)),
    tick1_eq]
  rfl

theorem tick3_eq :
    tick3
      = { currentVoltage := 10.4, batteryPercent := 18, temperature := 25.0,
          lowPowerMode := true, lastVoltageCheck := 15000 } := by
  unfold tick3
  rw [updateOf_due _ _ _ (by rw [tick2_eq]; decide), calculatePercent_10_4,
    decide_eq_true (by norm_num [BATTERY_LOW_VOLTAGE] : (10.4 : ℚ) < BATTERY_LOW_VOLTAGE),
    tick2_eq]
  rfl

theorem tick4_eq :
    tick4
      = { currentVoltage := 9.8, batteryPercent := 0, temperature := 25.0,
          lowPowerMode := true, lastVoltageCheck := 20000 } := by
  unfold tick4
  rw [updateOf_due _ _ _ (by rw [tick3_eq]; decide),
    calculatePercent_of_le_critical 9.8 (by norm_num [BATTERY_CRITICAL_VOLTAGE]),
    decide_eq_true (by norm_num [BATTERY_LOW_VOLTAGE] : (9.8 : ℚ) < BATTERY_LOW_VOLTAGE),
    tick3_eq]
  rfl


/-- C11 (counterexample): at 10.4 V `calculatePercent` returns 18, and 18 is
the percentage cached after the third tick of the scenario, not 19. -/
theorem scenario_third_percent :
    PowerManagement.calculatePercent 10.4 = 18
    ∧ tick3.getBatteryPercent = 18
    ∧ ¬ (tick3.getBatteryPercent = 19) := by
  refine ⟨calculatePercent_10_4, ?_, ?_⟩
  · rw [tick3_eq]; rfl
  · rw [tick3_eq]; decide

/-- C11 (amended): feeding 12.6, 11.1, 10.4 and 9.8 V on four consecutive
ticks, 5000 ms apart, from the constructed state, the computed percentages are
100, 44, 18, 0, the low-power flag is off, off, on, on, and the battery is
critical at the fourth tick only: Normal, Normal, LowPower, Critical. -/
theorem scenario_percents_and_modes :
    [PowerManagement.calculatePercent 12.6, PowerManagement.calculatePercent 11.1,
      PowerManagement.calculatePercent 10.4, PowerManagement.calculatePercent 9.8]
      = [100, 44, 18, 0]
    ∧ [tick1.getBatteryPercent, tick2.getBatteryPercent, tick3.getBatteryPercent,
        tick4.getBatteryPercent] = [100, 44, 18, 0]
    ∧ [tick1.lowPowerMode, tick2.lowPowerMode, tick3.lowPowerMode, tick4.lowPowerMode]
        = [false, false, true, true]
    ∧ [tick1.isBatteryCritical, tick2.isBatteryCritical, tick3.isBatteryCritical,
        tick4.isBatteryCritical] = [false, false, false, true] := by
  refine ⟨?_, ?_, ?_, ?_⟩
  · rw [calculatePercent_of_ge_max 12.6 (by norm_num [BATTERY_MAX_VOLTAGE]),
      calculatePercent_11_1, calculatePercent_10_4,
      calculatePercent_of_le_critical 9.8 (by norm_num [BATTERY_CRITICAL_VOLTAGE])]
  · rw [tick1_eq, tick2_eq, tick3_eq, tick4_eq]; rfl
  · rw [tick1_eq, tick2_eq, tick3_eq, tick4_eq]
  · rw [tick1_eq, tick2_eq, tick3_eq, tick4_eq]
    unfold PowerManagement.isBatteryCritical
    simp only
    rw [decide_eq_false (by norm_num [BATTERY_CRITICAL_VOLTAGE] :
          ¬ ((12.6 : ℚ) < BATTERY_CRITICAL_VOLTAGE)),
      decide_eq_false (by norm_num [BATTERY_CRITICAL_VOLTAGE] :
          ¬ ((11.1 : ℚ) < BATTERY_CRITICAL_VOLTAGE)),
      decide_eq_false (by norm_num [BATTERY_CRITICAL_VOLTAGE] :
          ¬ ((10.4 : ℚ) < BATTERY_CRITICAL_VOLTAGE)),
      decide_eq_true (by norm_num [BATTERY_CRITICAL_VOLTAGE] :
          (9.8 : ℚ) < BATTERY_CRITICAL_VOLTAGE)]

theorem adcSum_eq_readingsSum (adc : Nat → Nat) (h : ∀ i, i < 10 → adc i ≤ 4095) :
    adcSum adc = readingsSum adc := by
  have h0 := h 0 (by decide)
  have h1 := h 1 (by decide)
  have h2 := h 2 (by decide)
  have h3 := h 3 (by decide)
  have h4 := h 4 (by decide)
  have h5 := h 5 (by decide)
  have h6 := h 6 (by decide)
  have h7 := h 7 (by decide)
  have h8 := h 8 (by decide)
  have h9 := h 9 (by decide)
  have hr : List.range 10 = [0, 1, 2, 3, 4, 5, 6, 7, 8, 9] := by decide
  unfold adcSum readingsSum
  rw [hr]
  simp only [List.foldl, List.map, List.sum_cons, List.sum_nil, UINT32_MOD]
  omega

theorem readingsSum_le (adc : Nat → Nat) (h : ∀ i, i < 10 → adc i ≤ 4095) :
    readingsSum adc ≤ 40950 := by
  have h0 := h 0 (by decide)
  have h1 := h 1 (by decide)
  have h2 := h 2 (by decide)
  have h3 := h 3 (by decide)
  have h4 := h 4 (by decide)
  have h5 := h 5 (by decide)
  have h6 := h 6 (by decide)
  have h7 := h 7 (by decide)
  have h8 := h 8 (by decide)
  have h9 := h 9 (by decide)
  have hr : List.range 10 = [0, 1, 2, 3, 4, 5, 6, 7, 8, 9] := by decide
  unfold readingsSum
  rw [hr]
  simp only [List.map, List.sum_cons, List.sum_nil]
  omega

/-- For ten 12-bit readings `readVoltage` returns the integer part of their
mean, scaled; the result lies between 0 and 13.86, never exceeds the voltage
of the exact mean, and equals it when the sum of the readings is a multiple
of 10. -/
theorem readVoltage_floor_mean (adc : Nat → Nat) (h : ∀ i, i < 10 → adc i ≤ 4095) :
    (PowerManagement.readVoltage adc).1
      = ((readingsSum adc / 10 : Nat) : ℚ) / 4095 * 3.3 * VOLTAGE_DIVIDER_RATIO
    ∧ 0 ≤ (PowerManagement.readVoltage adc).1
    ∧ (PowerManagement.readVoltage adc).1 ≤ 13.86
    ∧ (PowerManagement.readVoltage adc).1 ≤ meanVoltage adc
    ∧ (10 ∣ readingsSum adc → (PowerManagement.readVoltage adc).1 = meanVoltage adc) := by
  have hv : (PowerManagement.readVoltage adc).1
      = ((readingsSum adc / 10 : Nat) : ℚ) / 4095 * 3.3 * VOLTAGE_DIVIDER_RATIO := by
    rw [readVoltage_eq, adcSum_eq_readingsSum adc h]; norm_num
  have hq : readingsSum adc / 10 ≤ 4095 := by
    have := readingsSum_le adc h
    omega
  have hq' : ((readingsSum adc / 10 : Nat) : ℚ) ≤ 4095 := by exact_mod_cast hq
  have hq0 : (0 : ℚ) ≤ ((readingsSum adc / 10 : Nat) : ℚ) := Nat.cast_nonneg _
  have hfl : ((readingsSum adc / 10 : Nat) : ℚ) ≤ (readingsSum adc : ℚ) / 10 := by
    rw [le_div_iff₀ (by norm_num)]
    have : readingsSum adc / 10 * 10 ≤ readingsSum adc := Nat.div_mul_le_self _ _
    exact_mod_cast this
  refine ⟨hv, ?_, ?_, ?_, ?_⟩
  · rw [hv]; norm_num [ VOLTAGE_DIVIDER_RATIO]; linarith
  · rw [hv]; norm_num [ VOLTAGE_DIVIDER_RATIO]; linarith
  · rw [hv]; unfold meanVoltage; norm_num [ VOLTAGE_DIVIDER_RATIO]; linarith
  · intro hd
    rw [hv]; unfold meanVoltage
    obtain ⟨k, hk⟩ := hd
    rw [hk]
    have : 10 * k / 10 = k := Nat.mul_div_cancel_left k (by decide)
    rw [this]
    push_cast
    field_simp

/-- C14 (code bug): for the readings 3009, 3000, ..., 3000 (sum 30009)
`readVoltage` returns 132/13 (10.1538 V, the voltage of 3000), while the
arithmetic mean 3000.9 scaled by `3.3 * 4.2 / 4095` is 330099/32500
(10.1569 V): `sum / numReadings` is an integer division. -/
theorem readVoltage_truncates_mean :
    readingsSum adcRipple = 30009
    ∧ (PowerManagement.readVoltage adcRipple).1 = 132 / 13
    ∧ meanVoltage adcRipple = 330099 / 32500
    ∧ (PowerManagement.readVoltage adcRipple).1 ≠ meanVoltage adcRipple := by
  have hs : readingsSum adcRipple = 30009 := by decide
  have hv : (PowerManagement.readVoltage adcRipple).1 = 132 / 13 := by
    have h : adcSum adcRipple / 10 = 3000 := by decide
    rw [readVoltage_eq, h]
    norm_num [ VOLTAGE_DIVIDER_RATIO]
  have hm : meanVoltage adcRipple = 330099 / 32500 := by
    unfold meanVoltage
    rw [hs]
    norm_num [ VOLTAGE_DIVIDER_RATIO]
  refine ⟨hs, hv, hm, ?_⟩
  rw [hv, hm]
  norm_num

theorem call_percent (s : PowerManagement) (c : PMCall)
    (h : s.batteryPercent = PowerManagement.calculatePercent s.currentVoltage) :
    (s.call c).batteryPercent = PowerManagement.calculatePercent (s.call c).currentVoltage := by
  have hg : ∀ now adc, (s.getBatteryVoltage now adc).state.batteryPercent
      = PowerManagement.calculatePercent (s.getBatteryVoltage now adc).state.currentVoltage := by
    intro now adc
    by_cases hd : POWER_CHECK_INTERVAL ≤ elapsed s now
    · rw [getBatteryVoltage_due s now adc hd]
    · rw [getBatteryVoltage_cached s now adc (not_le.mp hd)]; exact h
  cases c with
  | begin adc => rfl
  | getBatteryVoltage now adc => exact hg now adc
  | update now adc =>
    show (s.update now adc).state.batteryPercent
      = PowerManagement.calculatePercent (s.update now adc).state.currentVoltage
    rw [update_state]
    exact hg now adc
  | enterLowPowerMode =>
    show s.enterLowPowerMode.state.batteryPercent
      = PowerManagement.calculatePercent s.enterLowPowerMode.state.currentVoltage
    unfold PowerManagement.enterLowPowerMode
    split
    · exact h
    · exact h
  | exitLowPowerMode =>
    show s.exitLowPowerMode.state.batteryPercent
      = PowerManagement.calculatePercent s.exitLowPowerMode.state.currentVoltage
    unfold PowerManagement.exitLowPowerMode
    split
    · exact h
    · exact h

theorem foldl_percent (calls : List PMCall) (s : PowerManagement)
    (h : s.batteryPercent = PowerManagement.calculatePercent s.currentVoltage) :
    (calls.foldl PowerManagement.call s).batteryPercent
      = PowerManagement.calculatePercent (calls.foldl PowerManagement.call s).currentVoltage := by
  induction calls generalizing s with
  | nil => exact h
  | cons c cs ih => exact ih (s.call c) (call_percent s c h)

/-- C15: in every state reached from the constructor by calls of `begin`,
`getBatteryVoltage`, `update`, `enterLowPowerMode` and `exitLowPowerMode`,
`getBatteryPercent()` returns `calculatePercent` of the cached voltage, a
value of at most 100, and `isBatteryLow()` and `isBatteryCritical()` compare
that same cached voltage with their thresholds. -/
theorem percent_matches_voltage (calls : List PMCall) :
    (PowerManagement.reach calls).getBatteryPercent
      = PowerManagement.calculatePercent (PowerManagement.reach calls).currentVoltage
    ∧ (PowerManagement.reach calls).getBatteryPercent ≤ 100
    ∧ (PowerManagement.reach calls).isBatteryLow
        = decide ((PowerManagement.reach calls).currentVoltage < BATTERY_LOW_VOLTAGE)
    ∧ (PowerManagement.reach calls).isBatteryCritical
        = decide ((PowerManagement.reach calls).currentVoltage < BATTERY_CRITICAL_VOLTAGE) := by
  have h0 : PowerManagement.ctor.batteryPercent
      = PowerManagement.calculatePercent PowerManagement.ctor.currentVoltage :=
    (calculatePercent_of_le_critical _ (by
      show (0.0 : ℚ) ≤ BATTERY_CRITICAL_VOLTAGE
      norm_num [BATTERY_CRITICAL_VOLTAGE])).symm
  have hp := foldl_percent calls PowerManagement.ctor h0
  refine ⟨hp, ?_, rfl, rfl⟩
  show (PowerManagement.reach calls).batteryPercent ≤ 100
  unfold PowerManagement.reach
  rw [hp]
  exact calculatePercent_le _

end HelmetCam
